import Mathlib

set_option linter.unusedVariables false

/-!
Verification of the client-side Bluetooth event coordinator
(`system/gd/rust/linux/client/src/callbacks.rs`).

The Rust handlers mutate a shared `ClientContext` behind a mutex and
occasionally emit calls to external collaborators (the adapter D-Bus proxy
and the connection manager).  We embed them shallowly: each handler is a
pure function from the current `ClientContext` (plus the event payload) to
the new `ClientContext`, together with the list of external `BtAction`s it
emits.  The `HashMap` fields of the context are modelled as association
lists with the usual lookup semantics.
-/

/-- Device descriptor: stable `address` key plus a display `name`
(mirrors `btstack::bluetooth::BluetoothDevice`). -/
structure BluetoothDevice where
  address : String
  name : String
deriving DecidableEq, Repr

/-- The SSP (simple secure pairing) request variants
(mirrors `bt_topshim::btif::BtSspVariant`). -/
inductive BtSspVariant where
  | passkeyConfirmation
  | passkeyNotification
  | consent
  | passkeyEntry
deriving DecidableEq, Repr

/-- Bond states (mirrors `bt_topshim::btif::BtBondState`); the spec fixes
the wire encoding NotBonded=0, Bonding=1, Bonded=2 for the `u32` carried by
the bond-state-changed event, whose conversion `BtBondState::from` lives in
the external `bt_topshim` crate. -/
inductive BtBondState where
  | notBonded
  | bonding
  | bonded
deriving DecidableEq, Repr

/-- Calls the handlers emit toward external collaborators:
`set_pairing_confirmation` on the adapter proxy and
`connect_all_enabled_profiles` on the connection manager. -/
inductive BtAction where
  | setPairingConfirmation (device : BluetoothDevice) (accept : Bool)
  | connectAllEnabledProfiles (device : BluetoothDevice)
deriving DecidableEq, Repr

/-- Association-list lookup, modelling `HashMap::get`. -/
def alistGet {α β : Type} [DecidableEq α] (k : α) : List (α × β) → Option β
  | [] => none
  | (a, b) :: t => if a = k then some b else alistGet k t

/-- Modelling `HashMap::entry(k).or_insert(v)`: leave the map unchanged when
the key is present, otherwise add the binding. -/
def entryOrInsert {α β : Type} [DecidableEq α] (k : α) (v : β)
    (l : List (α × β)) : List (α × β) :=
  match alistGet k l with
  | some _ => l
  | none => l ++ [(k, v)]

/-- Modelling `HashMap::remove(k)`. -/
def alistRemove {α β : Type} [DecidableEq α] (k : α) :
    List (α × β) → List (α × β)
  | [] => []
  | (a, b) :: t => if a = k then alistRemove k t else (a, b) :: alistRemove k t

/-- The shared client state (`ClientContext` in the Rust client), restricted
to the fields the callbacks file reads or writes.  The `Arc<Mutex<...>>`
wrapper is modelled by explicit state passing. -/
structure ClientContext where
  adapters : List (Int × Bool)
  found_devices : List (String × BluetoothDevice)
  discovering_state : Bool
  bonding_attempt : Option BluetoothDevice
  adapter_address : Option String
  gatt_client_id : Option Int
deriving DecidableEq, Repr

/-- `BtManagerCallback::on_hci_device_changed`: when the interface becomes
present, track it with enabled=false unless already tracked; when it goes
away, drop it from the map. -/
def on_hci_device_changed (ctx : ClientContext) (hci_interface : Int)
    (present : Bool) : ClientContext :=
  if present then
    { ctx with adapters := entryOrInsert hci_interface false ctx.adapters }
  else
    { ctx with adapters := alistRemove hci_interface ctx.adapters }

/-- `BtCallback::on_address_changed`: overwrite the adapter address. -/
def on_address_changed (ctx : ClientContext) (addr : String) : ClientContext :=
  { ctx with adapter_address := some addr }

/-- `BtCallback::on_device_found`: `found_devices.entry(addr).or_insert(dev)`. -/
def on_device_found (ctx : ClientContext) (remote_device : BluetoothDevice) :
    ClientContext :=
  { ctx with found_devices :=
      entryOrInsert remote_device.address remote_device ctx.found_devices }

/-- `BtCallback::on_discovering_changed`: record the flag and, when a
discovery session starts, clear the found-device map. -/
def on_discovering_changed (ctx : ClientContext) (discovering : Bool) :
    ClientContext :=
  let ctx1 := { ctx with discovering_state := discovering }
  if discovering then { ctx1 with found_devices := [] } else ctx1

/-- The closure enqueued by the `Consent` arm of `on_ssp_request`: it
re-reads `bonding_attempt` from the live context at execution time and sends
a positive pairing confirmation only when the tracked device matches the
captured remote device by address. -/
def consentDeferredAction (rd : BluetoothDevice) (ctx : ClientContext) :
    ClientContext × List BtAction :=
  match ctx.bonding_attempt with
  | some bd =>
      if bd.address = rd.address then
        (ctx, [BtAction.setPairingConfirmation rd true])
      else (ctx, [])
  | none => (ctx, [])

/-- `BtCallback::on_ssp_request`: only the `Consent` variant does anything
beyond printing; it enqueues `consentDeferredAction` capturing the remote
device.  The second component is the captured device of the enqueued
deferred action (`none` when nothing is enqueued). -/
def on_ssp_request (ctx : ClientContext) (remote_device : BluetoothDevice)
    (cod : Nat) (variant : BtSspVariant) (passkey : Nat) :
    ClientContext × Option BluetoothDevice :=
  match variant with
  | BtSspVariant.passkeyNotification => (ctx, none)
  | BtSspVariant.consent => (ctx, some remote_device)
  | BtSspVariant.passkeyEntry => (ctx, none)
  | BtSspVariant.passkeyConfirmation => (ctx, none)

/-- `BtCallback::on_bond_state_changed`: clear `bonding_attempt` when a
NotBonded/Bonded event matches its address, and on every Bonded event call
`connect_all_enabled_profiles` with the event address and a generic name. -/
def on_bond_state_changed (ctx : ClientContext) (status : Nat)
    (address : String) (state : BtBondState) : ClientContext × List BtAction :=
  let ctx1 :=
    match state with
    | BtBondState.notBonded | BtBondState.bonded =>
        match ctx.bonding_attempt with
        | some bd =>
            if address = bd.address then { ctx with bonding_attempt := none }
            else ctx
        | none => ctx
    | BtBondState.bonding => ctx
  if state = BtBondState.bonded then
    (ctx1, [BtAction.connectAllEnabledProfiles
              { address := address, name := "Classic device" }])
  else
    (ctx1, [])

/-- `BtConnectionCallback::on_device_connected`: print-only, no mutation. -/
def on_device_connected (ctx : ClientContext) (remote_device : BluetoothDevice) :
    ClientContext :=
  ctx

/-- `BtConnectionCallback::on_device_disconnected`: print-only, no mutation. -/
def on_device_disconnected (ctx : ClientContext)
    (remote_device : BluetoothDevice) : ClientContext :=
  ctx

/-- `BtGattCallback::on_client_registered`: record the client id
unconditionally, whatever the status. -/
def on_client_registered (ctx : ClientContext) (status : Int)
    (client_id : Int) : ClientContext :=
  { ctx with gatt_client_id := some client_id }

/-- `BtGattCallback::on_client_connection_state`: print-only. -/
def on_client_connection_state (ctx : ClientContext) (status : Int)
    (client_id : Int) (connected : Bool) (addr : String) : ClientContext :=
  ctx

/-- `BtGattCallback::on_phy_update`: print-only.  The `LePhy` and
`GattStatus` payload types live in external crates and are opaque here. -/
def on_phy_update {LePhy GattStatus : Type} (ctx : ClientContext)
    (addr : String) (tx_phy rx_phy : LePhy) (status : GattStatus) :
    ClientContext :=
  ctx

/-- `BtGattCallback::on_phy_read`: print-only. -/
def on_phy_read {LePhy GattStatus : Type} (ctx : ClientContext)
    (addr : String) (tx_phy rx_phy : LePhy) (status : GattStatus) :
    ClientContext :=
  ctx

/-- `BtGattCallback::on_search_complete`: print-only.  The
`BluetoothGattService` payload type is external and opaque here. -/
def on_search_complete {BluetoothGattService : Type} (ctx : ClientContext)
    (addr : String) (services : List BluetoothGattService) (status : Int) :
    ClientContext :=
  ctx

/-- `BtGattCallback::on_characteristic_read`: print-only. -/
def on_characteristic_read (ctx : ClientContext) (addr : String)
    (status : Int) (handle : Int) (value : List Nat) : ClientContext :=
  ctx

/-- `BtGattCallback::on_characteristic_write`: print-only. -/
def on_characteristic_write (ctx : ClientContext) (addr : String)
    (status : Int) (handle : Int) : ClientContext :=
  ctx

/-- `BtGattCallback::on_execute_write`: print-only. -/
def on_execute_write (ctx : ClientContext) (addr : String) (status : Int) :
    ClientContext :=
  ctx

/-- `BtGattCallback::on_descriptor_read`: print-only. -/
def on_descriptor_read (ctx : ClientContext) (addr : String) (status : Int)
    (handle : Int) (value : List Nat) : ClientContext :=
  ctx

/-- `BtGattCallback::on_descriptor_write`: print-only. -/
def on_descriptor_write (ctx : ClientContext) (addr : String) (status : Int)
    (handle : Int) : ClientContext :=
  ctx

/-- `BtGattCallback::on_notify`: print-only. -/
def on_notify (ctx : ClientContext) (addr : String) (handle : Int)
    (value : List Nat) : ClientContext :=
  ctx

/-- `BtGattCallback::on_read_remote_rssi`: print-only. -/
def on_read_remote_rssi (ctx : ClientContext) (addr : String) (rssi : Int)
    (status : Int) : ClientContext :=
  ctx

/-- `BtGattCallback::on_configure_mtu`: print-only. -/
def on_configure_mtu (ctx : ClientContext) (addr : String) (mtu : Int)
    (status : Int) : ClientContext :=
  ctx

/-- `BtGattCallback::on_connection_updated`: print-only. -/
def on_connection_updated (ctx : ClientContext) (addr : String)
    (interval : Int) (latency : Int) (timeout : Int) (status : Int) :
    ClientContext :=
  ctx

/-- `BtGattCallback::on_service_changed`: print-only. -/
def on_service_changed (ctx : ClientContext) (addr : String) : ClientContext :=
  ctx

/-- The manager callback object; its shared-state handle is modelled by the
explicit state passing of the event functions above, so only its
registration identity remains. -/
structure BtManagerCallback where
  objpath : String
deriving DecidableEq, Repr

/-- `BtManagerCallback::new`. -/
def BtManagerCallback.new (objpath : String) : BtManagerCallback :=
  { objpath := objpath }

/-- `manager_service::RPCProxy::register_disconnect` for the manager
callback: ignores the closure, mutates nothing, returns 0. -/
def BtManagerCallback.register_disconnect {α : Type}
    (self : BtManagerCallback) (f : α) : Nat × BtManagerCallback :=
  (0, self)

/-- `manager_service::RPCProxy::get_object_id` for the manager callback. -/
def BtManagerCallback.get_object_id (self : BtManagerCallback) : String :=
  self.objpath

/-- `manager_service::RPCProxy::unregister` for the manager callback:
ignores the id, mutates nothing, returns false. -/
def BtManagerCallback.unregister (self : BtManagerCallback) (id : Nat) :
    Bool × BtManagerCallback :=
  (false, self)

/-- The adapter callback object (registration identity only, as above). -/
structure BtCallback where
  objpath : String
deriving DecidableEq, Repr

/-- `BtCallback::new`. -/
def BtCallback.new (objpath : String) : BtCallback :=
  { objpath := objpath }

/-- `RPCProxy::register_disconnect` for the adapter callback. -/
def BtCallback.register_disconnect {α : Type} (self : BtCallback) (f : α) :
    Nat × BtCallback :=
  (0, self)

/-- `RPCProxy::get_object_id` for the adapter callback. -/
def BtCallback.get_object_id (self : BtCallback) : String :=
  self.objpath

/-- `RPCProxy::unregister` for the adapter callback. -/
def BtCallback.unregister (self : BtCallback) (id : Nat) : Bool × BtCallback :=
  (false, self)

/-- The connection callback object (registration identity only). -/
structure BtConnectionCallback where
  objpath : String
deriving DecidableEq, Repr

/-- `BtConnectionCallback::new`. -/
def BtConnectionCallback.new (objpath : String) : BtConnectionCallback :=
  { objpath := objpath }

/-- `RPCProxy::register_disconnect` for the connection callback. -/
def BtConnectionCallback.register_disconnect {α : Type}
    (self : BtConnectionCallback) (f : α) : Nat × BtConnectionCallback :=
  (0, self)

/-- `RPCProxy::get_object_id` for the connection callback. -/
def BtConnectionCallback.get_object_id (self : BtConnectionCallback) :
    String :=
  self.objpath

/-- `RPCProxy::unregister` for the connection callback. -/
def BtConnectionCallback.unregister (self : BtConnectionCallback) (id : Nat) :
    Bool × BtConnectionCallback :=
  (false, self)

/-- The GATT callback object (registration identity only). -/
structure BtGattCallback where
  objpath : String
deriving DecidableEq, Repr

/-- `BtGattCallback::new`. -/
def BtGattCallback.new (objpath : String) : BtGattCallback :=
  { objpath := objpath }

/-- `RPCProxy::register_disconnect` for the GATT callback. -/
def BtGattCallback.register_disconnect {α : Type} (self : BtGattCallback)
    (f : α) : Nat × BtGattCallback :=
  (0, self)

/-- `RPCProxy::get_object_id` for the GATT callback. -/
def BtGattCallback.get_object_id (self : BtGattCallback) : String :=
  self.objpath

/-- `RPCProxy::unregister` for the GATT callback. -/
def BtGattCallback.unregister (self : BtGattCallback) (id : Nat) :
    Bool × BtGattCallback :=
  (false, self)

/-! Helper lemmas about the association-list operations. -/

lemma alistGet_append_single {α β : Type} [DecidableEq α] (k : α) (v : β)
    (l : List (α × β)) (h : alistGet k l = none) :
    alistGet k (l ++ [(k, v)]) = some v := by
  induction l with
  | nil => simp [alistGet]
  | cons hd t ih =>
      obtain ⟨a, b⟩ := hd
      by_cases hak : a = k
      · simp [alistGet, hak] at h
      · simp [alistGet, hak] at h ⊢
        exact ih h

lemma entryOrInsert_present {α β : Type} [DecidableEq α] {k : α} (v : β)
    {l : List (α × β)} {b : β} (h : alistGet k l = some b) :
    entryOrInsert k v l = l := by
  simp [entryOrInsert, h]

lemma entryOrInsert_absent {α β : Type} [DecidableEq α] {k : α} (v : β)
    {l : List (α × β)} (h : alistGet k l = none) :
    entryOrInsert k v l = l ++ [(k, v)] := by
  simp [entryOrInsert, h]

lemma alistGet_entryOrInsert_self {α β : Type} [DecidableEq α] (k : α)
    (v : β) (l : List (α × β)) :
    alistGet k (entryOrInsert k v l) = some ((alistGet k l).getD v) := by
  rcases h : alistGet k l with _ | b
  · rw [entryOrInsert_absent v h, alistGet_append_single k v l h]
    rfl
  · rw [entryOrInsert_present v h, h]
    rfl

lemma alistGet_alistRemove_self {α β : Type} [DecidableEq α] (k : α)
    (l : List (α × β)) : alistGet k (alistRemove k l) = none := by
  induction l with
  | nil => simp [alistRemove, alistGet]
  | cons hd t ih =>
      obtain ⟨a, b⟩ := hd
      by_cases hak : a = k
      · simp [alistRemove, hak, ih]
      · simp [alistRemove, alistGet, hak, ih]

lemma alistGet_alistRemove_other {α β : Type} [DecidableEq α] {j k : α}
    (h : j ≠ k) (l : List (α × β)) :
    alistGet j (alistRemove k l) = alistGet j l := by
  induction l with
  | nil => simp [alistRemove]
  | cons hd t ih =>
      obtain ⟨a, b⟩ := hd
      by_cases hak : a = k
      · subst hak
        have haj : a ≠ j := fun hc => h (hc ▸ rfl)
        simp [alistRemove, alistGet, haj, ih]
      · simp [alistRemove, alistGet, hak, ih]

/-- C4: `on_discovering_changed(discovering)` sets `discovering_state` to the
given value; when `discovering` is true the found-device map is empty
immediately afterwards, for every prior contents; when it is false the map
is left unchanged. -/
theorem discovering_changed_sets_flag_and_clears (ctx : ClientContext)
    (d : Bool) :
    (on_discovering_changed ctx d).discovering_state = d
    ∧ (on_discovering_changed ctx true).found_devices = []
    ∧ (on_discovering_changed ctx false).found_devices = ctx.found_devices := by
  refine ⟨?_, rfl, rfl⟩
  cases d <;> rfl

/-- C7: `on_client_registered(status, client_id)` stores `client_id` into
`gatt_client_id` unconditionally — for every status value the resulting
state is the old one with `gatt_client_id = some client_id`. -/
theorem client_registered_records_unconditionally (ctx : ClientContext)
    (status client_id : Int) :
    (on_client_registered ctx status client_id).gatt_client_id
      = some client_id
    ∧ on_client_registered ctx status client_id
      = { ctx with gatt_client_id := some client_id } :=
  ⟨rfl, rfl⟩

/-- C8: a bond-state-changed event with state Bonding performs no mutation
at all: the whole shared state is returned unchanged and no external action
is produced, for every state and every status/address. -/
theorem bonding_state_no_mutation (ctx : ClientContext) (status : Nat)
    (address : String) :
    on_bond_state_changed ctx status address BtBondState.bonding
      = (ctx, []) := by
  simp [on_bond_state_changed]

/-- C9: across the GATT event handlers the only state mutation is the
`gatt_client_id` write in `on_client_registered`; every other GATT event
returns the shared state unchanged, for every input. -/
theorem gatt_single_mutation (ctx : ClientContext) :
    (∀ status client_id, on_client_registered ctx status client_id
        = { ctx with gatt_client_id := some client_id })
    ∧ (∀ status client_id connected addr,
        on_client_connection_state ctx status client_id connected addr = ctx)
    ∧ (∀ (LePhy GattStatus : Type) (addr : String) (tx rx : LePhy)
        (s : GattStatus),
        on_phy_update ctx addr tx rx s = ctx
        ∧ on_phy_read ctx addr tx rx s = ctx)
    ∧ (∀ (S : Type) (addr : String) (services : List S) (status : Int),
        on_search_complete ctx addr services status = ctx)
    ∧ (∀ addr status handle value,
        on_characteristic_read ctx addr status handle value = ctx
        ∧ on_descriptor_read ctx addr status handle value = ctx)
    ∧ (∀ addr status handle,
        on_characteristic_write ctx addr status handle = ctx
        ∧ on_descriptor_write ctx addr status handle = ctx)
    ∧ (∀ addr status, on_execute_write ctx addr status = ctx)
    ∧ (∀ addr handle value, on_notify ctx addr handle value = ctx)
    ∧ (∀ addr rssi status, on_read_remote_rssi ctx addr rssi status = ctx)
    ∧ (∀ addr mtu status, on_configure_mtu ctx addr mtu status = ctx)
    ∧ (∀ addr interval latency tmo status,
        on_connection_updated ctx addr interval latency tmo status = ctx)
    ∧ (∀ addr, on_service_changed ctx addr = ctx) :=
  ⟨fun _ _ => rfl, fun _ _ _ _ => rfl, fun _ _ _ _ _ _ => ⟨rfl, rfl⟩,
   fun _ _ _ _ => rfl, fun _ _ _ _ => ⟨rfl, rfl⟩, fun _ _ _ => ⟨rfl, rfl⟩,
   fun _ _ => rfl, fun _ _ _ => rfl, fun _ _ _ => rfl, fun _ _ _ => rfl,
   fun _ _ _ _ _ => rfl, fun _ => rfl⟩

/-- C10: for each of the four callback objects, `unregister` returns false
and leaves the object unchanged, `register_disconnect` ignores the supplied
closure and returns 0 leaving the object unchanged, and `get_object_id`
returns exactly the objpath supplied at construction. -/
theorem rpcproxy_noop_deregistration (p : String) (id : Nat) :
    ((∀ self : BtManagerCallback, self.unregister id = (false, self)
        ∧ ∀ (α : Type) (f : α), self.register_disconnect f = (0, self))
      ∧ (BtManagerCallback.new p).get_object_id = p)
    ∧ ((∀ self : BtCallback, self.unregister id = (false, self)
        ∧ ∀ (α : Type) (f : α), self.register_disconnect f = (0, self))
      ∧ (BtCallback.new p).get_object_id = p)
    ∧ ((∀ self : BtConnectionCallback, self.unregister id = (false, self)
        ∧ ∀ (α : Type) (f : α), self.register_disconnect f = (0, self))
      ∧ (BtConnectionCallback.new p).get_object_id = p)
    ∧ ((∀ self : BtGattCallback, self.unregister id = (false, self)
        ∧ ∀ (α : Type) (f : α), self.register_disconnect f = (0, self))
      ∧ (BtGattCallback.new p).get_object_id = p) :=
  ⟨⟨fun _ => ⟨rfl, fun _ _ => rfl⟩, rfl⟩,
   ⟨fun _ => ⟨rfl, fun _ _ => rfl⟩, rfl⟩,
   ⟨fun _ => ⟨rfl, fun _ _ => rfl⟩, rfl⟩,
   ⟨fun _ => ⟨rfl, fun _ _ => rfl⟩, rfl⟩⟩

/-- C1: the Consent arm of `on_ssp_request` mutates nothing and enqueues the
deferred decision capturing the remote device; when the deferred decision
runs it leaves the shared state unchanged and emits exactly one positive
pairing confirmation iff `bonding_attempt` then holds a device with the
requesting address, and emits no confirmation otherwise. -/
theorem consent_confirmation_iff_matching_attempt (ctx : ClientContext)
    (rd : BluetoothDevice) (cod passkey : Nat) :
    on_ssp_request ctx rd cod BtSspVariant.consent passkey = (ctx, some rd)
    ∧ (consentDeferredAction rd ctx).1 = ctx
    ∧ ((consentDeferredAction rd ctx).2
          = [BtAction.setPairingConfirmation rd true]
        ↔ ∃ bd, ctx.bonding_attempt = some bd ∧ bd.address = rd.address)
    ∧ ((consentDeferredAction rd ctx).2 = []
        ↔ ∀ bd, ctx.bonding_attempt = some bd → bd.address ≠ rd.address) := by
  refine ⟨rfl, ?_, ?_, ?_⟩ <;>
    · unfold consentDeferredAction
      rcases h : ctx.bonding_attempt with _ | bd
      · simp [h]
      · by_cases hb : bd.address = rd.address <;> simp [h, hb]

theorem consent_confirmation_iff_matching_attempt_witness :
    (consentDeferredAction { address := "AA:BB", name := "X" }
        { adapters := [], found_devices := [], discovering_state := false,
          bonding_attempt := some { address := "AA:BB", name := "X" },
          adapter_address := none, gatt_client_id := none }).2
      = [BtAction.setPairingConfirmation
          { address := "AA:BB", name := "X" } true]
    ∧ (consentDeferredAction { address := "CC:DD", name := "Y" }
        { adapters := [], found_devices := [], discovering_state := false,
          bonding_attempt := some { address := "AA:BB", name := "X" },
          adapter_address := none, gatt_client_id := none }).2 = [] := by
  constructor
  · exact (consent_confirmation_iff_matching_attempt _ _ 0 0).2.2.1.mpr
      ⟨{ address := "AA:BB", name := "X" }, rfl, rfl⟩
  · exact (consent_confirmation_iff_matching_attempt _ _ 0 0).2.2.2.mpr
      (by intro bd h; cases h; decide)

/-- C2: every Bonded bond-state-changed event emits exactly one
connect-all-enabled-profiles action addressed to the event address with the
generic name, whatever `bonding_attempt` holds; and when `bonding_attempt`
is None or tracks a different address, the whole state is unchanged. -/
theorem bonded_always_triggers_autoconnect (ctx : ClientContext)
    (status : Nat) (address : String) :
    (on_bond_state_changed ctx status address BtBondState.bonded).2
      = [BtAction.connectAllEnabledProfiles
          { address := address, name := "Classic device" }]
    ∧ (ctx.bonding_attempt = none →
        (on_bond_state_changed ctx status address BtBondState.bonded).1 = ctx)
    ∧ (∀ bd, ctx.bonding_attempt = some bd → address ≠ bd.address →
        (on_bond_state_changed ctx status address BtBondState.bonded).1
          = ctx) := by
  refine ⟨?_, ?_, ?_⟩
  · simp [on_bond_state_changed]
  · intro h
    simp [on_bond_state_changed, h]
  · intro bd h hne
    simp [on_bond_state_changed, h, hne]

theorem bonded_always_triggers_autoconnect_witness :
    (on_bond_state_changed
        { adapters := [], found_devices := [], discovering_state := false,
          bonding_attempt := some { address := "AA:BB", name := "X" },
          adapter_address := none, gatt_client_id := none }
        0 "EE:FF" BtBondState.bonded).2
      = [BtAction.connectAllEnabledProfiles
          { address := "EE:FF", name := "Classic device" }]
    ∧ (on_bond_state_changed
        { adapters := [], found_devices := [], discovering_state := false,
          bonding_attempt := some { address := "AA:BB", name := "X" },
          adapter_address := none, gatt_client_id := none }
        0 "EE:FF" BtBondState.bonded).1
      = { adapters := [], found_devices := [], discovering_state := false,
          bonding_attempt := some { address := "AA:BB", name := "X" },
          adapter_address := none, gatt_client_id := none } := by
  refine ⟨(bonded_always_triggers_autoconnect _ 0 _).1,
    (bonded_always_triggers_autoconnect _ 0 _).2.2 _ rfl ?_⟩
  decide

/-- C3: a NotBonded or Bonded event whose address matches the tracked
`bonding_attempt` clears it to None; a mismatching address, or an event
arriving while no attempt is tracked, leaves `bonding_attempt` unchanged. -/
theorem bond_resolution_clears_matching_attempt (ctx : ClientContext)
    (status : Nat) (address : String) (st : BtBondState)
    (hst : st = BtBondState.notBonded ∨ st = BtBondState.bonded) :
    (∀ bd, ctx.bonding_attempt = some bd → address = bd.address →
        (on_bond_state_changed ctx status address st).1.bonding_attempt
          = none)
    ∧ (∀ bd, ctx.bonding_attempt = some bd → address ≠ bd.address →
        (on_bond_state_changed ctx status address st).1.bonding_attempt
          = ctx.bonding_attempt)
    ∧ (ctx.bonding_attempt = none →
        (on_bond_state_changed ctx status address st).1.bonding_attempt
          = ctx.bonding_attempt) := by
  rcases hst with rfl | rfl <;>
    exact ⟨fun bd h he => by simp [on_bond_state_changed, h, he],
           fun bd h hne => by simp [on_bond_state_changed, h, hne],
           fun h => by simp [on_bond_state_changed, h]⟩

theorem bond_resolution_clears_matching_attempt_witness :
    (on_bond_state_changed
        { adapters := [], found_devices := [], discovering_state := false,
          bonding_attempt := some { address := "AA:BB", name := "X" },
          adapter_address := none, gatt_client_id := none }
        0 "AA:BB" BtBondState.bonded).1.bonding_attempt = none :=
  (bond_resolution_clears_matching_attempt _ 0 _ _ (Or.inr rfl)).1
    { address := "AA:BB", name := "X" } rfl rfl

/-- C5: `on_device_found` inserts into `found_devices` only when the address
key is absent, so the first-seen descriptor for an address survives any
later report for the same address. -/
theorem device_found_first_seen_wins (ctx : ClientContext)
    (d1 d2 : BluetoothDevice) :
    (alistGet d1.address ctx.found_devices = none →
        alistGet d1.address (on_device_found ctx d1).found_devices = some d1)
    ∧ (∀ d, alistGet d2.address ctx.found_devices = some d →
        (on_device_found ctx d2).found_devices = ctx.found_devices)
    ∧ (d2.address = d1.address →
        alistGet d1.address
            (on_device_found (on_device_found ctx d1) d2).found_devices
          = alistGet d1.address (on_device_found ctx d1).found_devices) := by
  refine ⟨?_, ?_, ?_⟩
  · intro h
    simp [on_device_found, entryOrInsert_absent _ h,
      alistGet_append_single _ _ _ h]
  · intro d h
    simp [on_device_found, entryOrInsert_present _ h]
  · intro h
    have hp : alistGet d2.address
        (entryOrInsert d1.address d1 ctx.found_devices)
        = some ((alistGet d1.address ctx.found_devices).getD d1) := by
      rw [h]
      exact alistGet_entryOrInsert_self d1.address d1 ctx.found_devices
    simp [on_device_found, entryOrInsert_present _ hp]

theorem device_found_first_seen_wins_witness :
    alistGet "AA:BB"
        (on_device_found
          (on_device_found
            { adapters := [], found_devices := [],
              discovering_state := false, bonding_attempt := none,
              adapter_address := none, gatt_client_id := none }
            { address := "AA:BB", name := "first" })
          { address := "AA:BB", name := "second" }).found_devices
      = some { address := "AA:BB", name := "first" } := by
  have h := device_found_first_seen_wins
      { adapters := [], found_devices := [], discovering_state := false,
        bonding_attempt := none, adapter_address := none,
        gatt_client_id := none }
      { address := "AA:BB", name := "first" }
      { address := "AA:BB", name := "second" }
  exact (h.2.2 rfl).trans (h.1 rfl)

/-- C6: `on_hci_device_changed(i, true)` tracks `i` with enabled=false only
when absent and leaves an already-tracked entry (hence its enabled flag)
untouched, so a duplicate presence notification is a no-op; and
`on_hci_device_changed(i, false)` removes `i` entirely while leaving every
other adapter entry unchanged. -/
theorem adapter_presence_tracking (ctx : ClientContext) (i : Int) :
    (∀ b, alistGet i ctx.adapters = some b →
        on_hci_device_changed ctx i true = ctx)
    ∧ (alistGet i ctx.adapters = none →
        alistGet i (on_hci_device_changed ctx i true).adapters = some false)
    ∧ alistGet i (on_hci_device_changed ctx i false).adapters = none
    ∧ (∀ j, j ≠ i →
        alistGet j (on_hci_device_changed ctx i false).adapters
          = alistGet j ctx.adapters)
    ∧ on_hci_device_changed (on_hci_device_changed ctx i true) i true
        = on_hci_device_changed ctx i true := by
  refine ⟨?_, ?_, ?_, ?_, ?_⟩
  · intro b h
    simp [on_hci_device_changed, entryOrInsert_present _ h]
  · intro h
    simp [on_hci_device_changed, entryOrInsert_absent _ h,
      alistGet_append_single _ _ _ h]
  · simp [on_hci_device_changed, alistGet_alistRemove_self]
  · intro j hj
    simp [on_hci_device_changed, alistGet_alistRemove_other hj]
  · have hp := alistGet_entryOrInsert_self i false ctx.adapters
    simp [on_hci_device_changed, entryOrInsert_present _ hp]

theorem adapter_presence_tracking_witness :
    on_hci_device_changed
        { adapters := [(1, true)], found_devices := [],
          discovering_state := false, bonding_attempt := none,
          adapter_address := none, gatt_client_id := none } 1 true
      = { adapters := [(1, true)], found_devices := [],
          discovering_state := false, bonding_attempt := none,
          adapter_address := none, gatt_client_id := none }
    ∧ alistGet 2
        (on_hci_device_changed
          { adapters := [(1, true)], found_devices := [],
            discovering_state := false, bonding_attempt := none,
            adapter_address := none, gatt_client_id := none } 2 true).adapters
      = some false := by
  constructor
  · exact (adapter_presence_tracking _ 1).1 true (by decide)
  · exact (adapter_presence_tracking _ 2).2.1 (by decide)
